import Mathlib

/-!
Verification development for the Swans Legal AI police-report app
(`app.py`): a shallow embedding of its deterministic data-shaping
logic — statute-of-limitations date arithmetic, seasonal scheduling
link, claim-type classification, extraction-response fence stripping,
and the two HTTP operations `api_parse` and `api_approve` — together
with theorems settling the specification's claims about them.

Strings are modelled over ASCII; CPython's `str.strip`, `int(str)`,
and `datetime.strptime`/`strftime` are embedded for the ASCII inputs
the app handles.
-/

namespace SwansLegal

/-- The whitespace characters recognised by Python's `str.strip()` and
by the `\s` class of the `re` module (ASCII range). -/
def isPyWs (c : Char) : Bool :=
  c = ' ' || c = '\t' || c = '\n' || c = '\r' || c = '\x0b' || c = '\x0c'

/-- Strip leading and trailing Python whitespace from a character list,
as `str.strip()` does. -/
def pyStripL (l : List Char) : List Char :=
  ((l.dropWhile isPyWs).reverse.dropWhile isPyWs).reverse

/-- Python `str.strip()` on strings. -/
def pyStrip (s : String) : String :=
  String.mk (pyStripL s.toList)

/-- Digit run accepted by Python `int(str)` after the sign: a digit
followed by digits with single underscores allowed between digits
(`int("1_0") = 10`); accumulates the decimal value. -/
def digitsUnd (acc : Nat) : List Char → Option Nat
  | [] => some acc
  | '_' :: c :: rest =>
      if c.isDigit then digitsUnd (acc * 10 + (c.toNat - 48)) rest else none
  | c :: rest =>
      if c.isDigit then digitsUnd (acc * 10 + (c.toNat - 48)) rest else none

/-- Python `int(str)`: optional surrounding whitespace, optional sign,
then a digit run (underscore separators allowed). `none` models a
raised `ValueError`. -/
def pyInt (s : String) : Option Int :=
  match pyStripL s.toList with
  | '+' :: c :: rest =>
      if c.isDigit then (digitsUnd (c.toNat - 48) rest).map Int.ofNat else none
  | '-' :: c :: rest =>
      if c.isDigit then (digitsUnd (c.toNat - 48) rest).map (fun n => -(Int.ofNat n)) else none
  | c :: rest =>
      if c.isDigit then (digitsUnd (c.toNat - 48) rest).map Int.ofNat else none
  | [] => none

/-- The claim-type rule of `api_parse`: `num_injured = extracted.get("number_of_injured", "0")`
then `has_injuries = num_injured and int(num_injured) > 0` with
`ValueError`/`TypeError` mapped to `False`. -/
def classifyClaimType (numInjured : Option String) : String :=
  let v := numInjured.getD "0"
  let hasInjuries : Bool :=
    if v = "" then false
    else match pyInt v with
      | some n => decide (0 < n)
      | none => false
  if hasInjuries then "Bodily Injury & Property Damage" else "Property Damage Only"

/-- `get_seasonal_calendly_link`, with the current month made an explicit
argument (`datetime.now().month` in the source). -/
def get_seasonal_calendly_link (month : Nat) : String :=
  if 3 ≤ month ∧ month ≤ 8 then
    "https://calendly.com/swans-santiago-p/spring-summer"
  else
    "https://calendly.com/swans-santiago-p/winter-autumn"

/-- A proleptic-Gregorian calendar date, as CPython's `datetime.date`
holds it (year 1–9999 enforced at construction). -/
structure PDate where
  month : Nat
  day : Nat
  year : Nat
deriving DecidableEq

/-- Gregorian leap-year rule, as `calendar.isleap` / `datetime`. -/
def isLeap (y : Nat) : Bool :=
  y % 4 = 0 && (y % 100 ≠ 0 || y % 400 = 0)

/-- Days in a month, as validated by `datetime.date`. -/
def daysInMonth (year month : Nat) : Nat :=
  if month = 2 then (if isLeap year then 29 else 28)
  else if month = 4 || month = 6 || month = 9 || month = 11 then 30
  else 31

/-- Decimal value of a digit string, most significant digit first. -/
def natOfDigits : List Char → Nat
  | [] => 0
  | c :: cs => (c.toNat - 48) * 10 ^ cs.length + natOfDigits cs

/-- The `%m` field of `_strptime`: one or two ASCII digits with value
1–12 (regex `1[0-2]|0[1-9]|[1-9]`). -/
def monthToken (t : List Char) : Bool :=
  t.all Char.isDigit && (t.length = 1 || t.length = 2)
    && 1 ≤ natOfDigits t && natOfDigits t ≤ 12

/-- The `%d` field of `_strptime`: one or two ASCII digits with value
1–31 (regex `3[01]|[12]\d|0[1-9]|[1-9]`). -/
def dayToken (t : List Char) : Bool :=
  t.all Char.isDigit && (t.length = 1 || t.length = 2)
    && 1 ≤ natOfDigits t && natOfDigits t ≤ 31

/-- The `%Y` field of `_strptime`: exactly four ASCII digits. -/
def yearToken (t : List Char) : Bool :=
  t.all Char.isDigit && t.length = 4

/-- Split a character list at every `/`, as the literal `/` separators
of the format string divide the digit fields. -/
def splitSlash : List Char → List (List Char)
  | [] => [[]]
  | '/' :: rest => [] :: splitSlash rest
  | c :: rest =>
      match splitSlash rest with
      | [] => [[c]]
      | t :: ts => (c :: t) :: ts

/-- `datetime.strptime(s, "%m/%d/%Y")`: the whole string must be
month `/` day `/` four-digit year, and `datetime` construction then
validates year ≥ 1 and the day against the month length. `none`
models a raised `ValueError`. -/
def strptimeMDY (s : String) : Option PDate :=
  match splitSlash s.toList with
  | [m, d, y] =>
      if monthToken m && dayToken d && yearToken y then
        let mo := natOfDigits m
        let da := natOfDigits d
        let yr := natOfDigits y
        if 1 ≤ yr ∧ da ≤ daysInMonth yr mo then some ⟨mo, da, yr⟩ else none
      else none
  | _ => none

/-- Two-digit zero-padded field, as `%m` / `%d` in `strftime`. -/
def pad2 (n : Nat) : String :=
  if n < 10 then "0" ++ toString n else toString n

/-- `dt.strftime("%m/%d/%Y")`: zero-padded month and day; `%Y` prints
the year unpadded (glibc), which is four digits for all years the app
produces from four-digit inputs. -/
def strftimeMDY (d : PDate) : String :=
  pad2 d.month ++ "/" ++ pad2 d.day ++ "/" ++ toString d.year

/-- `compute_statute_of_limitations`: parse MM/DD/YYYY, add 8 years via
`dt.replace(year=dt.year + 8)`, falling back to day 28 when the shifted
date does not exist (Feb 29 → non-leap target). Both `replace` calls
raise when the target year exceeds `datetime.MAXYEAR = 9999`, and the
outer handler then returns the empty string, as it does for any parse
failure. `none` models a `None` argument (`TypeError` path). -/
def compute_statute_of_limitations (accidentDate : Option String) : String :=
  match accidentDate with
  | none => ""
  | some s =>
      match strptimeMDY s with
      | none => ""
      | some d =>
          if d.year + 8 ≤ 9999 then
            if d.day ≤ daysInMonth (d.year + 8) d.month then
              strftimeMDY ⟨d.month, d.day, d.year + 8⟩
            else
              strftimeMDY ⟨d.month, 28, d.year + 8⟩
          else ""

/-- `pattern` is a prefix of `l`, character by character. -/
def startsWithChars : List Char → List Char → Bool
  | [], _ => true
  | _ :: _, [] => false
  | p :: ps, c :: cs => p = c && startsWithChars ps cs

/-- `pattern` is a suffix of `l`, character by character. -/
def endsWithChars (pat l : List Char) : Bool :=
  startsWithChars pat.reverse l.reverse

/-- The response handling of `parse_police_report` between the API call
and `json.loads`: `raw_text = text.strip()`, then if it starts with
three backticks, `re.sub` of the opening fence (backticks, an optional
`json` tag, then `\s*`) and of the closing fence (`\s*` then backticks,
anchored at the end). -/
def stripFencedL (text : List Char) : List Char :=
  let raw := pyStripL text
  if startsWithChars ['`', '`', '`'] raw then
    let r1 := raw.drop 3
    let r2 := if startsWithChars ['j', 's', 'o', 'n'] r1 then r1.drop 4 else r1
    let r3 := r2.dropWhile isPyWs
    if endsWithChars ['`', '`', '`'] r3 then
      ((r3.reverse.drop 3).dropWhile isPyWs).reverse
    else r3
  else raw

/-- Fence stripping on strings, as applied to the extraction service's
textual response before `json.loads`. -/
def stripFencedResponse (text : String) : String :=
  String.mk (stripFencedL text.toList)

/-- A JSON-object record as the app passes it around: a flat mapping of
string keys to string values, with Python-dict key uniqueness modelled
by first-match lookup and in-place update. -/
abbrev Record := List (String × String)

/-- Python dict assignment `d[k] = v`: replaces the value of an existing
key in place, otherwise appends the pair at the end. -/
def setKey (k v : String) : Record → Record
  | [] => [(k, v)]
  | (k', v') :: rest => if k' = k then (k, v) :: rest else (k', v') :: setKey k v rest

/-- Outcome of the call to `parse_police_report` inside `api_parse`:
a parsed mapping, a `json.JSONDecodeError`, or any other exception. -/
inductive ExtractOutcome
  | ok (m : Record)
  | jsonError (msg : String)
  | otherError (msg : String)
deriving DecidableEq

/-- The observable result of `api_parse`: HTTP status, the JSON body's
`success` / `error` / `data` fields, and whether the extraction call
was attempted. -/
structure ParseResponse where
  status : Nat
  success : Option Bool
  error : Option String
  data : Option Record
  extractionCalled : Bool
deriving DecidableEq

/-- `file.filename.lower().endswith(".pdf")`. -/
def lowerEndsWithPdf (filename : String) : Bool :=
  endsWithChars ['.', 'p', 'd', 'f'] (filename.toList.map Char.toLower)

/-- The `/api/parse` handler. Inputs made explicit: whether a `file`
field is present, its filename (`""` models a missing/empty name), the
`ANTHROPIC_API_KEY` value, the outcome of the extraction call, and the
current month (for the Calendly link). -/
def api_parse (filePresent : Bool) (filename : String) (apiKey : String)
    (outcome : ExtractOutcome) (month : Nat) : ParseResponse :=
  if !filePresent then
    ⟨400, none, some "No file uploaded", none, false⟩
  else if filename = "" ∨ lowerEndsWithPdf filename = false then
    ⟨400, none, some "Please upload a PDF file", none, false⟩
  else if apiKey = "" then
    ⟨500, none, some "ANTHROPIC_API_KEY not configured", none, false⟩
  else
    match outcome with
    | .ok m =>
        let accidentDate := (List.lookup "accident_date" m).getD ""
        let sol := compute_statute_of_limitations (some accidentDate)
        let m1 := setKey "statute_of_limitations_date" sol m
        let m2 := setKey "calendly_link" (get_seasonal_calendly_link month) m1
        let m3 := setKey "claim_type" (classifyClaimType (List.lookup "number_of_injured" m2)) m2
        ⟨200, some true, none, some m3, true⟩
    | .jsonError e =>
        ⟨500, none, some ("Failed to parse AI response as JSON: " ++ e), none, true⟩
    | .otherError e =>
        ⟨500, none, some ("Error processing PDF: " ++ e), none, true⟩

/-- Outcome of `requests.post` to the webhook: a status code, or a
raised `requests.RequestException` with its message. -/
inductive WebhookOutcome
  | ok (statusCode : Nat)
  | exn (msg : String)
deriving DecidableEq

/-- The observable result of `api_approve`: HTTP status, the JSON body's
fields, whether the webhook POST was attempted, and the payload it was
given. -/
structure ApproveResponse where
  status : Nat
  success : Option Bool
  error : Option String
  message : Option String
  webhookStatus : Option Nat
  data : Option Record
  webhookCalled : Bool
  webhookPayload : Option Record
deriving DecidableEq

/-- The record `api_approve` builds after validation: `matter_id`
overwritten with its stripped value, then `approved_at`, `approved_by`
and `calendly_link` stamped on. -/
def approveRecord (d : Record) (ts : String) (month : Nat) : Record :=
  setKey "calendly_link" (get_seasonal_calendly_link month)
    (setKey "approved_by" "Paralegal"
      (setKey "approved_at" ts
        (setKey "matter_id" (pyStrip ((List.lookup "matter_id" d).getD "")) d)))

/-- The `/api/approve` handler. Inputs made explicit: the parsed JSON
body (`none` models a missing/null body), the `MAKE_WEBHOOK_URL` value,
the outcome the webhook POST would have, the `datetime.now().isoformat()`
timestamp, and the current month. -/
def api_approve (body : Option Record) (webhookUrl : String)
    (outcome : WebhookOutcome) (ts : String) (month : Nat) : ApproveResponse :=
  match body with
  | none => ⟨400, none, some "No data provided", none, none, none, false, none⟩
  | some d =>
      if d = [] then ⟨400, none, some "No data provided", none, none, none, false, none⟩
      else
        let matterId := pyStrip ((List.lookup "matter_id" d).getD "")
        if matterId = "" then
          ⟨400, none, some "Clio Matter ID is required", none, none, none, false, none⟩
        else
          let d4 := approveRecord d ts month
          if webhookUrl = "" then
            ⟨200, some true, none,
              some "Data approved successfully (no webhook configured — demo mode)",
              none, some d4, false, none⟩
          else
            match outcome with
            | .ok sc =>
                ⟨200, some true, none,
                  some "Data approved and sent to automation workflow",
                  some sc, none, true, some d4⟩
            | .exn e =>
                ⟨502, some false, none,
                  some ("Data approved but webhook delivery failed: " ++ e),
                  none, some d4, true, some d4⟩

/-- The matter identifier of a submitted body, as `api_approve` reads it:
`(data.get("matter_id") or "")` with a missing body contributing the
empty string. -/
def matterIdOf (body : Option Record) : String :=
  match body with
  | none => ""
  | some d => (List.lookup "matter_id" d).getD ""

/-! Helper lemmas about record lookup and update. -/

theorem lookup_setKey (k v k0 : String) (r : Record) :
    List.lookup k0 (setKey k v r) = if k0 = k then some v else List.lookup k0 r := by
  induction r with
  | nil =>
      by_cases h : k0 = k <;>
        simp [setKey, List.lookup, h, beq_false_of_ne]
  | cons p rest ih =>
      obtain ⟨k', v'⟩ := p
      by_cases hk : k' = k
      · subst hk
        by_cases h0 : k0 = k' <;>
          simp [setKey, List.lookup, h0, beq_false_of_ne]
      · by_cases h0 : k0 = k'
        · subst h0
          simp [setKey, List.lookup, hk, beq_false_of_ne hk]
        · simp [setKey, List.lookup, hk, h0, beq_false_of_ne h0, ih]

theorem lookup_approveRecord_other (d : Record) (ts : String) (month : Nat) (k : String)
    (h1 : k ≠ "matter_id") (h2 : k ≠ "approved_at") (h3 : k ≠ "approved_by")
    (h4 : k ≠ "calendly_link") :
    List.lookup k (approveRecord d ts month) = List.lookup k d := by
  simp [approveRecord, lookup_setKey, h1, h2, h3, h4]

theorem lookup_approveRecord_matter (d : Record) (ts : String) (month : Nat) :
    List.lookup "matter_id" (approveRecord d ts month) =
      some (pyStrip ((List.lookup "matter_id" d).getD "")) := by
  simp [approveRecord, lookup_setKey]

/-! Theorems settling the specification's claims. -/

/-- C9: the seasonal scheduling link returns the spring/summer URL
exactly for months 3–8 and the winter/autumn URL otherwise (months
1, 2, 9, 10, 11, 12 included); in this embedding it is a pure function
of the month alone. -/
theorem c9_seasonal_link (month : Nat) :
    (get_seasonal_calendly_link month = "https://calendly.com/swans-santiago-p/spring-summer"
      ↔ (3 ≤ month ∧ month ≤ 8)) ∧
    (get_seasonal_calendly_link month = "https://calendly.com/swans-santiago-p/winter-autumn"
      ↔ ¬(3 ≤ month ∧ month ≤ 8)) := by
  by_cases h : 3 ≤ month ∧ month ≤ 8 <;>
    simp [get_seasonal_calendly_link, h]

/-- C2: with an empty `ANTHROPIC_API_KEY`, `api_parse` (on a request that
passed the file checks) answers the configuration error — HTTP 500 with
the `ANTHROPIC_API_KEY not configured` message, the spec's
"service-unavailable" response — and never attempts the extraction
call. -/
theorem c2_missing_key_no_extraction (fn : String) (outcome : ExtractOutcome) (month : Nat)
    (hfn : fn ≠ "") (hpdf : lowerEndsWithPdf fn = true) :
    (api_parse true fn "" outcome month).status = 500 ∧
    (api_parse true fn "" outcome month).error = some "ANTHROPIC_API_KEY not configured" ∧
    (api_parse true fn "" outcome month).extractionCalled = false := by
  simp [api_parse, hfn, hpdf]

/-- C2 witness at a concrete request. -/
theorem c2_missing_key_no_extraction_witness :
    (api_parse true "report.pdf" "" (.ok []) 5).status = 500 ∧
    (api_parse true "report.pdf" "" (.ok []) 5).error =
      some "ANTHROPIC_API_KEY not configured" ∧
    (api_parse true "report.pdf" "" (.ok []) 5).extractionCalled = false :=
  c2_missing_key_no_extraction "report.pdf" (.ok []) 5 (by decide) (by decide)

/-- C5: a submit-approval request whose matter id is missing, empty or
whitespace-only after stripping is answered with a 400 validation error
and the webhook POST is never attempted. -/
theorem c5_blank_matter_rejected (body : Option Record) (url : String)
    (outcome : WebhookOutcome) (ts : String) (month : Nat)
    (h : pyStrip (matterIdOf body) = "") :
    (api_approve body url outcome ts month).status = 400 ∧
    (api_approve body url outcome ts month).webhookCalled = false ∧
    ((api_approve body url outcome ts month).error = some "No data provided" ∨
     (api_approve body url outcome ts month).error = some "Clio Matter ID is required") := by
  cases body with
  | none => simp [api_approve]
  | some d =>
      by_cases hd : d = []
      · simp [api_approve, hd]
      · simp only [matterIdOf] at h
        simp [api_approve, hd, h]

/-- C5 witness at a concrete whitespace-only matter id. -/
theorem c5_blank_matter_rejected_witness :
    (api_approve (some [("matter_id", "   "), ("client_name", "Alice")])
        "https://hook" (.ok 200) "T" 5).status = 400 ∧
    (api_approve (some [("matter_id", "   "), ("client_name", "Alice")])
        "https://hook" (.ok 200) "T" 5).webhookCalled = false ∧
    ((api_approve (some [("matter_id", "   "), ("client_name", "Alice")])
        "https://hook" (.ok 200) "T" 5).error = some "No data provided" ∨
     (api_approve (some [("matter_id", "   "), ("client_name", "Alice")])
        "https://hook" (.ok 200) "T" 5).error = some "Clio Matter ID is required") :=
  c5_blank_matter_rejected (some [("matter_id", "   "), ("client_name", "Alice")])
    "https://hook" (.ok 200) "T" 5 (by decide)

/-- C6: with a webhook configured and the POST raising a
`requests.RequestException`, `api_approve` catches it and answers 502
with `success = false`, the delivery error message, and the full
approved record echoed in `data` (the exception never propagates: the
handler is total). -/
theorem c6_webhook_failure_reported (d : Record) (url e ts : String) (month : Nat)
    (hd : d ≠ []) (hm : pyStrip ((List.lookup "matter_id" d).getD "") ≠ "")
    (hu : url ≠ "") :
    (api_approve (some d) url (.exn e) ts month).status = 502 ∧
    (api_approve (some d) url (.exn e) ts month).success = some false ∧
    (api_approve (some d) url (.exn e) ts month).message =
      some ("Data approved but webhook delivery failed: " ++ e) ∧
    (api_approve (some d) url (.exn e) ts month).data = some (approveRecord d ts month) := by
  simp [api_approve, hd, hm, hu]

/-- C6 witness at a concrete failing delivery. -/
theorem c6_webhook_failure_reported_witness :
    (api_approve (some [("matter_id", "M-1")]) "https://hook" (.exn "timeout") "T" 5).status = 502 ∧
    (api_approve (some [("matter_id", "M-1")]) "https://hook" (.exn "timeout") "T" 5).success =
      some false ∧
    (api_approve (some [("matter_id", "M-1")]) "https://hook" (.exn "timeout") "T" 5).message =
      some ("Data approved but webhook delivery failed: " ++ "timeout") ∧
    (api_approve (some [("matter_id", "M-1")]) "https://hook" (.exn "timeout") "T" 5).data =
      some (approveRecord [("matter_id", "M-1")] "T" 5) :=
  c6_webhook_failure_reported [("matter_id", "M-1")] "https://hook" "timeout" "T" 5
    (by decide) (by decide) (by decide)

/-- C1 counterexample: the claim says the success path always returns
`client_email = ""` regardless of the extraction service's mapping, but
`api_parse` never touches that key — with a service mapping carrying a
non-empty `client_email`, the returned record carries it unchanged.
Only the prompt text asks the model for an empty string; no code
enforces it. -/
theorem c1_counterexample :
    ((api_parse true "report.pdf" "key"
        (.ok [("client_email", "alice@example.com")]) 5).data.bind
      (List.lookup "client_email")) = some "alice@example.com" ∧
    some "alice@example.com" ≠ (some "" : Option String) := by
  constructor
  · decide
  · decide

/-- C1 (amended): on the success path of `api_parse`, the returned
record's `client_email` equals exactly what the extraction service's
mapping holds for that key (absent keys stay absent); emptiness is
requested by the prompt but not enforced in code. -/
theorem c1_amended (fn key : String) (m : Record) (month : Nat)
    (hfn : fn ≠ "") (hpdf : lowerEndsWithPdf fn = true) (hk : key ≠ "") :
    ((api_parse true fn key (.ok m) month).data.bind (List.lookup "client_email")) =
      List.lookup "client_email" m := by
  simp [api_parse, hfn, hpdf, hk, lookup_setKey]

/-- C1 (amended) witness at a concrete request. -/
theorem c1_amended_witness :
    ((api_parse true "report.pdf" "key"
        (.ok [("client_email", ""), ("client_name", "Bob Ray")]) 5).data.bind
      (List.lookup "client_email")) =
      List.lookup "client_email" [("client_email", ""), ("client_name", "Bob Ray")] :=
  c1_amended "report.pdf" "key" [("client_email", ""), ("client_name", "Bob Ray")] 5
    (by decide) (by decide) (by decide)

/-- C4: `compute_statute_of_limitations` returns the empty string (and
is total, so never raises) on every input that fails MM/DD/YYYY
parsing, and on a `None` argument. -/
theorem c4_parse_failure_empty :
    (∀ s : String, strptimeMDY s = none → compute_statute_of_limitations (some s) = "") ∧
    compute_statute_of_limitations none = "" := by
  constructor
  · intro s h
    simp [compute_statute_of_limitations, h]
  · rfl

/-- C4 witness at the spec's own malformed example. -/
theorem c4_parse_failure_empty_witness :
    compute_statute_of_limitations (some "13/40/2020") = "" :=
  c4_parse_failure_empty.1 "13/40/2020" (by decide)

/-- C8: the claim-type rule of `api_parse` yields
`Bodily Injury & Property Damage` exactly when the `number_of_injured`
value is present and parses (as Python `int`) to an integer greater
than zero, and `Property Damage Only` in every other case — zero,
negative, empty, missing, or unparsable input. -/
theorem c8_claim_type_rule (v : Option String) :
    (classifyClaimType v = "Bodily Injury & Property Damage" ↔
      ∃ s n, v = some s ∧ pyInt s = some n ∧ 0 < n) ∧
    (¬(∃ s n, v = some s ∧ pyInt s = some n ∧ 0 < n) →
      classifyClaimType v = "Property Damage Only") := by
  have main : classifyClaimType v = "Bodily Injury & Property Damage" ↔
      ∃ s n, v = some s ∧ pyInt s = some n ∧ 0 < n := by
    cases v with
    | none =>
        constructor
        · intro h
          exact absurd h (by decide)
        · rintro ⟨s, n, hs, -⟩
          exact Option.noConfusion hs
    | some s =>
        by_cases hs : s = ""
        · subst hs
          simp [classifyClaimType, pyInt, pyStripL]
        · cases hp : pyInt s with
          | none => simp [classifyClaimType, hs, hp]
          | some n =>
              by_cases hn : 0 < n
              · simp [classifyClaimType, hs, hp, hn]
              · simp [classifyClaimType, hs, hp, hn]
  refine ⟨main, fun h => ?_⟩
  rcases hb : (if (v.getD "0") = "" then false
      else match pyInt (v.getD "0") with
        | some n => decide (0 < n)
        | none => false : Bool) with _ | _
  · simp [classifyClaimType, hb]
  · exact absurd (main.mp (by simp [classifyClaimType, hb])) h

/-- C10: once matter-id validation passes, the record `api_approve`
sends to the webhook and/or echoes in the response differs from the
submitted record only at `matter_id` (overwritten by its stripped
value), `approved_at`, `approved_by` and `calendly_link`: lookups at
every other key are unchanged. -/
theorem c10_approve_frame (d : Record) (url : String) (outcome : WebhookOutcome)
    (ts : String) (month : Nat) (rec : Record) (k : String)
    (hd : d ≠ []) (hm : pyStrip ((List.lookup "matter_id" d).getD "") ≠ "")
    (hrec : (api_approve (some d) url outcome ts month).webhookPayload = some rec ∨
            (api_approve (some d) url outcome ts month).data = some rec) :
    (k ≠ "matter_id" → k ≠ "approved_at" → k ≠ "approved_by" → k ≠ "calendly_link" →
      List.lookup k rec = List.lookup k d) ∧
    List.lookup "matter_id" rec = some (pyStrip ((List.lookup "matter_id" d).getD "")) := by
  have hrec' : rec = approveRecord d ts month := by
    by_cases hu : url = ""
    · simp [api_approve, hd, hm, hu] at hrec
      exact hrec.symm
    · cases outcome with
      | ok sc =>
          simp [api_approve, hd, hm, hu] at hrec
          exact hrec.symm
      | exn e =>
          simp [api_approve, hd, hm, hu] at hrec
          exact hrec.symm
  subst hrec'
  exact ⟨fun h1 h2 h3 h4 => lookup_approveRecord_other d ts month k h1 h2 h3 h4,
    lookup_approveRecord_matter d ts month⟩

/-- C10 witness: a concrete approval with an extra key, delivered to a
failing webhook; the extra key survives unchanged and `matter_id` is
stripped. -/
theorem c10_approve_frame_witness :
    ("client_name" ≠ "matter_id" → "client_name" ≠ "approved_at" →
      "client_name" ≠ "approved_by" → "client_name" ≠ "calendly_link" →
      List.lookup "client_name"
          (approveRecord [("matter_id", " M-7 "), ("client_name", "Alice")] "T" 11) =
        List.lookup "client_name" [("matter_id", " M-7 "), ("client_name", "Alice")]) ∧
    List.lookup "matter_id"
        (approveRecord [("matter_id", " M-7 "), ("client_name", "Alice")] "T" 11) =
      some (pyStrip ((List.lookup "matter_id"
        [("matter_id", " M-7 "), ("client_name", "Alice")]).getD "")) :=
  c10_approve_frame [("matter_id", " M-7 "), ("client_name", "Alice")] "https://hook"
    (.exn "conn reset") "T" 11
    (approveRecord [("matter_id", " M-7 "), ("client_name", "Alice")] "T" 11) "client_name"
    (by decide) (by decide) (Or.inl (by decide))

/-- Every date `strptimeMDY` accepts has its day within the parsed
month's length for the parsed year (the `datetime` constructor check). -/
theorem strptimeMDY_day_le (s : String) (d : PDate) (h : strptimeMDY s = some d) :
    d.day ≤ daysInMonth d.year d.month := by
  unfold strptimeMDY at h
  rcases hs : splitSlash s.toList with _ | ⟨m, _ | ⟨dd, _ | ⟨y, _ | ⟨z, zs⟩⟩⟩⟩ <;>
    rw [hs] at h <;> try exact Option.noConfusion h
  simp only [] at h
  split_ifs at h with h1 h2
  · injection h with h3
    subst h3
    exact h2.2

/-- Month lengths other than February do not depend on the year. -/
theorem daysInMonth_ne_two (y y' m : Nat) (hm : m ≠ 2) :
    daysInMonth y m = daysInMonth y' m := by
  simp [daysInMonth, hm]

/-- February is 28 or 29 days long. -/
theorem daysInMonth_two_le (y : Nat) : daysInMonth y 2 ≤ 29 := by
  rcases h : isLeap y <;> simp [daysInMonth, h]

/-- C3 counterexample: `06/15/9995` parses as an MM/DD/YYYY date, but
the target year 10003 exceeds `datetime.MAXYEAR = 9999`, so both
`replace` calls raise and the function returns `""` instead of the date
eight years later. -/
theorem c3_counterexample :
    strptimeMDY "06/15/9995" = some ⟨6, 15, 9995⟩ ∧
    compute_statute_of_limitations (some "06/15/9995") = "" ∧
    ("" : String) ≠ strftimeMDY ⟨6, 15, 9995 + 8⟩ := by
  exact ⟨by decide, by decide, by decide⟩

/-- C3 (amended): for every input parsing as an MM/DD/YYYY date whose
year plus 8 still fits `datetime`'s year range,
`compute_statute_of_limitations` returns the date exactly 8 years
later with the same month and day, except Feb 29 inputs whose target
year is non-leap, which clamp to day 28; inputs parsing to years above
9991 instead yield the empty string (the counterexample). -/
theorem c3_amended (s : String) (d : PDate)
    (h : strptimeMDY s = some d) (hy : d.year + 8 ≤ 9999) :
    compute_statute_of_limitations (some s) =
      strftimeMDY ⟨d.month,
        if d.month = 2 ∧ d.day = 29 ∧ isLeap (d.year + 8) = false then 28 else d.day,
        d.year + 8⟩ := by
  have hday := strptimeMDY_day_le s d h
  have hcomp : compute_statute_of_limitations (some s) =
      if d.day ≤ daysInMonth (d.year + 8) d.month then
        strftimeMDY ⟨d.month, d.day, d.year + 8⟩
      else strftimeMDY ⟨d.month, 28, d.year + 8⟩ := by
    simp [compute_statute_of_limitations, h, hy]
  rw [hcomp]
  by_cases h2 : d.month = 2
  · rw [h2] at hday ⊢
    cases hl : isLeap (d.year + 8) with
    | false =>
        have hdm : daysInMonth (d.year + 8) 2 = 28 := by simp [daysInMonth, hl]
        by_cases h29 : d.day = 29
        · rw [h29, hdm]
          rw [if_neg (by omega), if_pos ⟨rfl, rfl, rfl⟩]
        · have hle : d.day ≤ 28 := by
            have := daysInMonth_two_le d.year
            omega
          rw [hdm, if_pos hle, if_neg (by simp [h29])]
    | true =>
        have hdm : daysInMonth (d.year + 8) 2 = 29 := by simp [daysInMonth, hl]
        have hle : d.day ≤ 29 := le_trans hday (daysInMonth_two_le d.year)
        rw [hdm, if_pos hle, if_neg (by simp [hl])]
  · rw [if_pos (by rw [daysInMonth_ne_two (d.year + 8) d.year d.month h2]; exact hday),
      if_neg (by simp [h2])]

/-- C3 (amended) witness: the clamping case Feb 29, 2092 → Feb 28, 2100
(2100 is not a leap year). -/
theorem c3_amended_witness :
    compute_statute_of_limitations (some "02/29/2092") = "02/28/2100" := by
  have h := c3_amended "02/29/2092" ⟨2, 29, 2092⟩ (by decide) (by decide)
  exact h.trans (by decide)

theorem dropWhile_cons_nonws (c : Char) (l : List Char) (hc : isPyWs c = false) :
    List.dropWhile isPyWs (c :: l) = c :: l := by
  simp [List.dropWhile_cons, hc]

/-- `str.strip()` is the identity on a string whose first and last
characters are not whitespace. -/
theorem pyStripL_nonws (a b : Char) (l : List Char)
    (ha : isPyWs a = false) (hb : isPyWs b = false) :
    pyStripL (a :: (l ++ [b])) = a :: (l ++ [b]) := by
  unfold pyStripL
  rw [dropWhile_cons_nonws a (l ++ [b]) ha]
  have hrev : (a :: (l ++ [b])).reverse = b :: (l.reverse ++ [a]) := by simp
  rw [hrev, dropWhile_cons_nonws b _ hb]
  simp

/-- C7: for every JSON object text `J` (braces first and last), the
extraction client's response handling reduces the fenced response
<three backticks>`json` newline `J` newline <three backticks> to
exactly the string `J` it parses unfenced, so `json.loads` receives the
identical input in both cases and yields the same mapping. -/
theorem c7_fence_round_trip (J : String) (mid : List Char)
    (hJ : J.toList = '{' :: (mid ++ ['}'])) :
    stripFencedResponse ("```json\n" ++ J ++ "\n```") = J ∧
    stripFencedResponse J = J := by
  have hmkJ : String.mk J.toList = J := rfl
  have hws1 : isPyWs '`' = false := by decide
  have hws2 : isPyWs '{' = false := by decide
  have hws3 : isPyWs '}' = false := by decide
  have hws4 : isPyWs '\n' = true := by decide
  constructor
  · have h1 : ("```json\n" ++ J ++ "\n```").toList =
        ['`', '`', '`', 'j', 's', 'o', 'n', '\n'] ++ J.toList ++ ['\n', '`', '`', '`'] := rfl
    rw [hJ] at h1
    have h4 : ("```json\n" ++ J ++ "\n```").toList =
        '`' :: '`' :: '`' :: 'j' :: 's' :: 'o' :: 'n' :: '\n' :: '{' ::
          (mid ++ ['}', '\n', '`', '`', '`']) := by
      rw [h1]; simp
    have h3 : stripFencedL ('`' :: '`' :: '`' :: 'j' :: 's' :: 'o' :: 'n' :: '\n' :: '{' ::
        (mid ++ ['}', '\n', '`', '`', '`'])) = '{' :: (mid ++ ['}']) := by
      simp [stripFencedL, pyStripL, startsWithChars, endsWithChars,
        List.dropWhile_cons, hws1, hws2, hws3, hws4]
    unfold stripFencedResponse
    rw [h4, h3, ← hJ, hmkJ]
  · have h5 : stripFencedL ('{' :: (mid ++ ['}'])) = '{' :: (mid ++ ['}']) := by
      have hp := pyStripL_nonws '{' '}' mid hws2 hws3
      simp [stripFencedL, hp, startsWithChars]
    unfold stripFencedResponse
    rw [hJ, h5, ← hJ, hmkJ]

/-- C7 witness at the smallest JSON object text. -/
theorem c7_fence_round_trip_witness :
    stripFencedResponse ("```json\n" ++ "{}" ++ "\n```") = "{}" ∧
    stripFencedResponse "{}" = "{}" :=
  c7_fence_round_trip "{}" [] (by decide)

end SwansLegal
